import Mathlib

/-!
Shallow embedding of the `mail-engine` crate (`src/crates/mail-engine/src/lib.rs`):
the OAuth2 authorization/token lifecycle engine.  Pure helpers of the source are
translated to Lean functions; the two SQLite tables (`oauth_settings`,
`oauth_tokens`) become association lists keyed by the provider key string; the
orchestrator functions (`login_and_fetch`, `try_restore_session`) become
state-passing functions over an explicit store, with the network, browser and
callback collaborators supplied by an oracle, and the externally visible side
effects (socket bind, browser open, token exchanges, inbox fetch) recorded in an
event trace.

String primitives: Rust `str::trim`, `str::is_empty` and `str::ends_with` are
modelled at the character-list level (`rust_trim`, `rust_is_empty`,
`rust_ends_with`) so that they are kernel-computable; on the ASCII data the
engine handles they agree with the Rust originals.
-/

deriving instance DecidableEq for Except

/-- Model of Rust `str::trim`: drop whitespace from both ends. -/
def rust_trim (s : String) : String :=
  ⟨((s.data.dropWhile Char.isWhitespace).reverse.dropWhile Char.isWhitespace).reverse⟩

/-- Model of Rust `str::is_empty`. -/
def rust_is_empty (s : String) : Bool :=
  s.data.isEmpty

/-- Model of Rust `str::ends_with`. -/
def rust_ends_with (s sfx : String) : Bool :=
  List.isSuffixOf sfx.data s.data

/-- `Provider` enum from the source. -/
inductive Provider where
  | google
  | outlook
deriving DecidableEq, Repr

/-- `Provider::label`. -/
def Provider.label : Provider → String
  | .google => "Google"
  | .outlook => "Outlook"

/-- `Provider::as_key`. -/
def Provider.as_key : Provider → String
  | .google => "google"
  | .outlook => "outlook"

/-- `Provider::from_key`. -/
def Provider.from_key (key : String) : Option Provider :=
  if key = "google" then some .google
  else if key = "outlook" then some .outlook
  else none

/-- `ProviderCredentials` struct. -/
structure ProviderCredentials where
  client_id : String
  client_secret : Option String
deriving DecidableEq, Repr

/-- `SavedOAuthSettings` struct. -/
structure SavedOAuthSettings where
  google : Option ProviderCredentials := none
  outlook : Option ProviderCredentials := none
deriving DecidableEq, Repr

/-- `MailMessage` struct. -/
structure MailMessage where
  subject : String
  «from» : String
  date : String
  body : String
deriving DecidableEq, Repr

/-- `LoginResult` struct. -/
structure LoginResult where
  provider : Provider
  account : String
  messages : List MailMessage
deriving DecidableEq, Repr

/-- `TokenSet` struct (access token plus optional refresh token). -/
structure TokenSet where
  access_token : String
  refresh_token : Option String
deriving DecidableEq, Repr

/-- One row of the `oauth_settings` table: `client_id` is NOT NULL,
`client_secret` is nullable. -/
structure SettingsRow where
  client_id : String
  client_secret : Option String
deriving DecidableEq, Repr

/-- The persistent store: the two SQLite tables, each an association list keyed
by the provider key string (the `provider` column, a primary key). -/
structure Store where
  oauth_settings : List (String × SettingsRow)
  oauth_tokens : List (String × String)
deriving DecidableEq, Repr

/-- A `provider`-keyed primary-key lookup (`SELECT ... WHERE provider = ?1`). -/
def find_row {α : Type} : List (String × α) → String → Option α
  | [], _ => none
  | row :: rest, key => if row.1 = key then some row.2 else find_row rest key

/-- `INSERT ... ON CONFLICT(provider) DO UPDATE`: replace the row with this key
if one exists (the primary key admits at most one), otherwise append. -/
def upsert_row {α : Type} : List (String × α) → String → α → List (String × α)
  | [], key, value => [(key, value)]
  | row :: rest, key, value =>
      if row.1 = key then (key, value) :: rest else row :: upsert_row rest key value

/-- `DELETE FROM ... WHERE provider = ?1`. -/
def delete_rows {α : Type} : List (String × α) → String → List (String × α)
  | [], _ => []
  | row :: rest, key =>
      if row.1 = key then delete_rows rest key else row :: delete_rows rest key

/-- The `provider` column is a primary key: keys occur at most once. -/
def table_wf {α : Type} (rows : List (String × α)) : Prop :=
  (rows.map Prod.fst).Nodup

/-- `empty_to_none` from the source. -/
def empty_to_none (value : String) : Option String :=
  let trimmed := rust_trim value
  if rust_is_empty trimmed then none else some trimmed

/-- `normalized_secret` from the source. -/
def normalized_secret (secret : Option String) : Option String :=
  secret.bind fun value =>
    let trimmed := rust_trim value
    if rust_is_empty trimmed then none else some trimmed

/-- One iteration of the row loop in `Engine::load_oauth_settings`: map the row
into the settings struct when its key names a provider (`COALESCE(client_secret,
'')` followed by `empty_to_none`). -/
def apply_settings_row (settings : SavedOAuthSettings) (row : String × SettingsRow) :
    SavedOAuthSettings :=
  let credentials : ProviderCredentials :=
    { client_id := row.2.client_id
      client_secret := empty_to_none (row.2.client_secret.getD "") }
  match Provider.from_key row.1 with
  | some .google => { settings with google := some credentials }
  | some .outlook => { settings with outlook := some credentials }
  | none => settings

/-- `Engine::load_oauth_settings`: scan all `oauth_settings` rows into the
settings struct. -/
def load_oauth_settings (store : Store) : SavedOAuthSettings :=
  store.oauth_settings.foldl apply_settings_row {}

/-- Field of `SavedOAuthSettings` selected by a provider. -/
def settings_field (settings : SavedOAuthSettings) : Provider → Option ProviderCredentials
  | .google => settings.google
  | .outlook => settings.outlook

/-- `Engine::save_provider_credentials`: reject an empty trimmed client id,
otherwise upsert the row keyed by the provider. -/
def save_provider_credentials (store : Store) (provider : Provider)
    (credentials : ProviderCredentials) : Except String Store :=
  let client_id := rust_trim credentials.client_id
  if rust_is_empty client_id then
    Except.error "client id mag niet leeg zijn"
  else
    Except.ok
      { store with
        oauth_settings :=
          upsert_row store.oauth_settings provider.as_key
            ⟨client_id, normalized_secret credentials.client_secret⟩ }

/-- `Engine::load_refresh_token`: look the row up; a whitespace-only stored
token reads back as `none`, any other stored token is returned verbatim. -/
def load_refresh_token (store : Store) (provider : Provider) : Option String :=
  match find_row store.oauth_tokens provider.as_key with
  | some refresh_token =>
      if rust_is_empty (rust_trim refresh_token) then none else some refresh_token
  | none => none

/-- `Engine::save_refresh_token`: upsert the raw token string, no
normalization on the write path. -/
def save_refresh_token (store : Store) (provider : Provider) (refresh_token : String) :
    Store :=
  { store with oauth_tokens := upsert_row store.oauth_tokens provider.as_key refresh_token }

/-- `Engine::clear_refresh_token`: delete the row. -/
def clear_refresh_token (store : Store) (provider : Provider) : Store :=
  { store with oauth_tokens := delete_rows store.oauth_tokens provider.as_key }

theorem find_row_upsert_self {α : Type} (rows : List (String × α)) (key : String) (value : α) :
    find_row (upsert_row rows key value) key = some value := by
  induction rows with
  | nil => simp [upsert_row, find_row]
  | cons row rest ih =>
      by_cases h : row.1 = key
      · simp [upsert_row, find_row, h]
      · simp [upsert_row, find_row, h, ih]

theorem find_row_delete_self {α : Type} (rows : List (String × α)) (key : String) :
    find_row (delete_rows rows key) key = none := by
  induction rows with
  | nil => simp [delete_rows, find_row]
  | cons row rest ih =>
      by_cases h : row.1 = key
      · simp [delete_rows, h, ih]
      · simp [delete_rows, find_row, h, ih]

theorem upsert_row_upsert_row {α : Type} (rows : List (String × α)) (key : String)
    (v1 v2 : α) : upsert_row (upsert_row rows key v1) key v2 = upsert_row rows key v2 := by
  induction rows with
  | nil => simp [upsert_row]
  | cons row rest ih =>
      by_cases h : row.1 = key
      · simp [upsert_row, h]
      · simp [upsert_row, h, ih]

theorem find_row_eq_none_of_not_mem {α : Type} (rows : List (String × α)) (key : String)
    (h : key ∉ rows.map Prod.fst) : find_row rows key = none := by
  induction rows with
  | nil => simp [find_row]
  | cons row rest ih =>
      simp only [List.map_cons, List.mem_cons] at h
      push_neg at h
      have hne : row.1 ≠ key := fun hk => h.1 hk.symm
      simp [find_row, hne, ih h.2]

theorem mem_keys_upsert {α : Type} (rows : List (String × α)) (key k : String) (value : α)
    (h : k ∈ (upsert_row rows key value).map Prod.fst) :
    k ∈ rows.map Prod.fst ∨ k = key := by
  induction rows with
  | nil =>
      simp only [upsert_row, List.map_cons, List.map_nil, List.mem_singleton] at h
      right; exact h
  | cons row rest ih =>
      simp only [upsert_row] at h
      by_cases hr : row.1 = key
      · rw [if_pos hr] at h
        simp only [List.map_cons, List.mem_cons] at h
        rcases h with h | h
        · right; exact h
        · left; simp only [List.map_cons, List.mem_cons]; right; exact h
      · rw [if_neg hr] at h
        simp only [List.map_cons, List.mem_cons] at h
        rcases h with h | h
        · left; simp only [List.map_cons, List.mem_cons]; left; exact h
        · rcases ih h with h2 | h2
          · left; simp only [List.map_cons, List.mem_cons]; right; exact h2
          · right; exact h2

theorem table_wf_upsert {α : Type} (rows : List (String × α)) (key : String) (value : α)
    (hw : table_wf rows) : table_wf (upsert_row rows key value) := by
  induction rows with
  | nil => simp [table_wf, upsert_row]
  | cons row rest ih =>
      simp only [table_wf, List.map_cons, List.nodup_cons] at hw
      by_cases hr : row.1 = key
      · simp only [upsert_row, hr, if_pos]
        simp only [table_wf, List.map_cons, List.nodup_cons]
        exact ⟨hr ▸ hw.1, hw.2⟩
      · simp only [upsert_row, hr, if_neg, not_false_iff]
        simp only [table_wf, List.map_cons, List.nodup_cons]
        refine ⟨fun hmem => ?_, ih hw.2⟩
        rcases mem_keys_upsert rest key row.1 value hmem with h | h
        · exact hw.1 h
        · exact hr h

theorem apply_settings_row_field_eq (settings : SavedOAuthSettings) (p : Provider)
    (row : String × SettingsRow) (h : row.1 = p.as_key) :
    settings_field (apply_settings_row settings row) p =
      some ⟨row.2.client_id, empty_to_none (row.2.client_secret.getD "")⟩ := by
  cases p <;>
    simp_all [apply_settings_row, Provider.from_key, Provider.as_key, settings_field]

theorem apply_settings_row_field_ne (settings : SavedOAuthSettings) (p : Provider)
    (row : String × SettingsRow) (h : row.1 ≠ p.as_key) :
    settings_field (apply_settings_row settings row) p = settings_field settings p := by
  cases p <;> by_cases h1 : row.1 = "google" <;> by_cases h2 : row.1 = "outlook" <;>
    simp_all [apply_settings_row, Provider.from_key, Provider.as_key, settings_field]

theorem settings_foldl_field (rows : List (String × SettingsRow)) (acc : SavedOAuthSettings)
    (p : Provider) (hw : table_wf rows) :
    settings_field (rows.foldl apply_settings_row acc) p =
      match find_row rows p.as_key with
      | some row => some ⟨row.client_id, empty_to_none (row.client_secret.getD "")⟩
      | none => settings_field acc p := by
  induction rows generalizing acc with
  | nil => simp [find_row]
  | cons row rest ih =>
      simp only [table_wf, List.map_cons, List.nodup_cons] at hw
      have hwrest : table_wf rest := hw.2
      by_cases hr : row.1 = p.as_key
      · have hnone : find_row rest p.as_key = none :=
          find_row_eq_none_of_not_mem rest p.as_key (hr ▸ hw.1)
        simp only [List.foldl_cons, find_row, hr, if_pos]
        rw [ih (apply_settings_row acc row) hwrest, hnone]
        exact apply_settings_row_field_eq acc p row hr
      · simp only [List.foldl_cons, find_row, hr, if_neg, not_false_iff]
        rw [ih (apply_settings_row acc row) hwrest]
        cases h : find_row rest p.as_key with
        | some r => simp
        | none => simp [apply_settings_row_field_ne acc p row hr]

/-- For a well-formed table, `load_oauth_settings` reads, for each provider,
exactly the row stored under that provider's key. -/
theorem load_oauth_settings_find (store : Store) (p : Provider)
    (hw : table_wf store.oauth_settings) :
    settings_field (load_oauth_settings store) p =
      (find_row store.oauth_settings p.as_key).map
        (fun row => ⟨row.client_id, empty_to_none (row.client_secret.getD "")⟩) := by
  rw [load_oauth_settings, settings_foldl_field store.oauth_settings {} p hw]
  cases h : find_row store.oauth_settings p.as_key with
  | some r => simp
  | none => cases p <;> simp [settings_field]

/-- `validate_credentials`: non-empty trimmed client id; a Google client id
must end with the Google OAuth client-id suffix. -/
def validate_credentials (provider : Provider) (credentials : ProviderCredentials) :
    Except String Unit :=
  let client_id := rust_trim credentials.client_id
  if rust_is_empty client_id then
    Except.error "Client ID is leeg."
  else if provider = Provider.google ∧
      ¬ rust_ends_with client_id ".apps.googleusercontent.com" = true then
    Except.error "Google Client ID lijkt ongeldig. Gebruik de volledige OAuth Client ID uit Google Cloud (eindigt op .apps.googleusercontent.com)."
  else
    Except.ok ()

/-- The environment variables the engine consults, plus the configured redirect
URI after URL parsing (`redirect_url()`: the `MAIL_OAUTH_REDIRECT_URI` override
or the fixed default, fed through `Url::parse`; the parsed URL itself is
modelled by `UrlModel` below). -/
structure UrlModel where
  scheme : String
  host : Option String
  port_or_known_default : Option Nat
  path : String
deriving DecidableEq, Repr

/-- Environment of one engine call: the Google credential override variables
and the configured redirect URI (already fed through `Url::parse`). -/
structure Env where
  google_client_id : Option String
  google_client_secret : Option String
  redirect_parsed : Except String UrlModel
deriving Repr

/-- `load_google_credentials_from_env`: `MAIL_GOOGLE_CLIENT_ID` trimmed and
required non-empty, `MAIL_GOOGLE_CLIENT_SECRET` trimmed with whitespace-only
mapped to absent. -/
def load_google_credentials_from_env (env : Env) : Option ProviderCredentials :=
  match env.google_client_id with
  | none => none
  | some raw =>
      let client_id := rust_trim raw
      if rust_is_empty client_id then none
      else
        some
          { client_id
            client_secret :=
              env.google_client_secret.bind fun value =>
                let trimmed := rust_trim value
                if rust_is_empty trimmed then none else some trimmed }

/-- `Engine::load_provider_credentials`: stored settings first; the environment
fallback applies to Google only (`settings.google.or_else(...)`). -/
def load_provider_credentials (env : Env) (store : Store) (provider : Provider) :
    Option ProviderCredentials :=
  let settings := load_oauth_settings store
  match provider with
  | .google =>
      match settings.google with
      | some credentials => some credentials
      | none => load_google_credentials_from_env env
  | .outlook => settings.outlook

/-- The `MissingCredentials` error message built in `login_and_fetch` and
`try_restore_session`. -/
def missing_credentials_message (provider : Provider) : String :=
  "Geen OAuth-client ingesteld voor " ++ provider.label ++ ". Vul eerst Client ID in de app in."

/-- `RedirectTarget` struct. -/
structure RedirectTarget where
  host : String
  port : Nat
  path : String
deriving DecidableEq, Repr

/-- `RedirectTarget::from_url`: plaintext HTTP, loopback host, determinable
port, non-root path attendants, in the source's check order. -/
def RedirectTarget.from_url (url : UrlModel) : Except String RedirectTarget :=
  if url.scheme ≠ "http" then
    Except.error "redirect URI moet http zijn (localhost callback)"
  else
    match url.host with
    | none => Except.error "redirect URI mist host"
    | some host =>
        if host ≠ "127.0.0.1" ∧ host ≠ "localhost" then
          Except.error "redirect URI host moet localhost of 127.0.0.1 zijn"
        else
          match url.port_or_known_default with
          | none => Except.error "redirect URI mist poort"
          | some port =>
              if url.path = "" ∨ url.path = "/" then
                Except.error "redirect URI pad moet specifiek zijn (bijv. /callback)"
              else
                Except.ok ⟨host, port, url.path⟩

/-- The single callback request captured by the listener, after the request
line has been parsed into the URL's path and decoded query pairs. -/
structure CallbackRequest where
  path : String
  query : List (String × String)
deriving DecidableEq, Repr

/-- Accumulator of the query-pair loop in `parse_callback_params`. -/
structure CallbackParams where
  code : Option String := none
  state : Option String := none
  error : Option String := none
deriving DecidableEq, Repr

/-- The query-pair loop of `parse_callback_params`: the last occurrence of each
of `code`, `state`, `error` wins. -/
def extract_params (query : List (String × String)) : CallbackParams :=
  query.foldl
    (fun acc pair =>
      if pair.1 = "code" then { acc with code := some pair.2 }
      else if pair.1 = "state" then { acc with state := some pair.2 }
      else if pair.1 = "error" then { acc with error := some pair.2 }
      else acc)
    {}

/-- `parse_callback_params`: returns the HTTP status line fragment, the
response body, and either the authorization code or the flow failure. -/
def parse_callback_params (callback : CallbackRequest) (target : RedirectTarget)
    (expected_state : String) : String × String × Except String String :=
  if callback.path ≠ target.path then
    let msg := "Ongeldige callback path: " ++ callback.path
    ("400 Bad Request", msg, Except.error msg)
  else
    let params := extract_params callback.query
    match params.error with
    | some err =>
        let msg := "OAuth login mislukt: " ++ err
        ("400 Bad Request", msg, Except.error msg)
    | none =>
        if params.state ≠ some expected_state then
          ("400 Bad Request", "OAuth state mismatch", Except.error "OAuth state mismatch")
        else
          match params.code with
          | some code =>
              ("200 OK", "Login geslaagd. Je kunt dit tabblad sluiten.", Except.ok code)
          | none =>
              ("400 Bad Request", "OAuth callback bevat geen code",
                Except.error "OAuth callback bevat geen code")

/-- Externally visible side effects of one orchestrator run, in order. -/
inductive Event where
  | socketBind
  | browserOpen (extra_params : List (String × String))
  | refreshExchange
  | tokenExchange (code : String)
  | fetchInbox
deriving DecidableEq, Repr

/-- The external collaborators of one flow attempt: the CSRF token drawn for
the flow, whether the system browser opens, the single callback request the
listener captures, and the outcomes of the three upstream HTTP interactions
(refresh exchange, code exchange, inbox fetch).  Bind and timeout failures of
the listener are not modelled: the oracle always delivers one request. -/
structure Oracle where
  csrf_token : String
  browser_ok : Bool
  callback : CallbackRequest
  refresh_result : Except String TokenSet
  exchange_result : Except String TokenSet
  inbox_result : Except String LoginResult
deriving Repr

/-- The extra authorization-URL parameters added in `login_and_fetch`: offline
access and forced consent, for Google only and only when no refresh token was
stored at flow start. -/
def auth_extra_params (provider : Provider) (stored_refresh : Option String) :
    List (String × String) :=
  if provider = Provider.google ∧ stored_refresh = none then
    [("access_type", "offline"), ("prompt", "consent")]
  else []

/-- The interactive tail of `login_and_fetch`: build the authorization URL
(with `auth_extra_params`), open the browser, run the callback listener
(`wait_for_oauth_code`, which binds the socket and applies
`parse_callback_params`), exchange the code, persist a returned refresh token,
fetch the inbox.  The hint enrichment of a failed code exchange
(`with_token_exchange_hint`) decorates the message only and is not modelled. -/
def login_interactive (o : Oracle) (store : Store) (provider : Provider)
    (target : RedirectTarget) (stored_refresh : Option String) :
    Except String LoginResult × Store × List Event :=
  let extra := auth_extra_params provider stored_refresh
  if o.browser_ok then
    match (parse_callback_params o.callback target o.csrf_token).2.2 with
    | Except.error e => (Except.error e, store, [Event.browserOpen extra, Event.socketBind])
    | Except.ok code =>
        match o.exchange_result with
        | Except.error e =>
            (Except.error e, store,
              [Event.browserOpen extra, Event.socketBind, Event.tokenExchange code])
        | Except.ok token_set =>
            let store2 :=
              match token_set.refresh_token with
              | some new_refresh_token => save_refresh_token store provider new_refresh_token
              | none => store
            (o.inbox_result, store2,
              [Event.browserOpen extra, Event.socketBind, Event.tokenExchange code,
                Event.fetchInbox])
  else
    (Except.error "browser kon niet worden geopend", store, [Event.browserOpen extra])

/-- `Engine::login_and_fetch`. -/
def login_and_fetch (env : Env) (o : Oracle) (store : Store) (provider : Provider) :
    Except String LoginResult × Store × List Event :=
  match load_provider_credentials env store provider with
  | none => (Except.error (missing_credentials_message provider), store, [])
  | some credentials =>
      match validate_credentials provider credentials with
      | Except.error e => (Except.error e, store, [])
      | Except.ok _ =>
          match env.redirect_parsed with
          | Except.error e => (Except.error e, store, [])
          | Except.ok url =>
              match RedirectTarget.from_url url with
              | Except.error e => (Except.error e, store, [])
              | Except.ok target =>
                  match load_refresh_token store provider with
                  | some _ =>
                      match o.refresh_result with
                      | Except.ok token_set =>
                          let store2 :=
                            match token_set.refresh_token with
                            | some new_refresh_token =>
                                save_refresh_token store provider new_refresh_token
                            | none => store
                          (o.inbox_result, store2, [Event.refreshExchange, Event.fetchInbox])
                      | Except.error _ =>
                          let r :=
                            login_interactive o (clear_refresh_token store provider) provider
                              target (load_refresh_token store provider)
                          (r.1, r.2.1, Event.refreshExchange :: r.2.2)
                  | none => login_interactive o store provider target none

/-- `Engine::try_restore_session`. -/
def try_restore_session (env : Env) (o : Oracle) (store : Store) (provider : Provider) :
    Except String (Option LoginResult) × Store × List Event :=
  match load_refresh_token store provider with
  | none => (Except.ok none, store, [])
  | some _ =>
      match load_provider_credentials env store provider with
      | none => (Except.error (missing_credentials_message provider), store, [])
      | some credentials =>
          match validate_credentials provider credentials with
          | Except.error e => (Except.error e, store, [])
          | Except.ok _ =>
              match env.redirect_parsed with
              | Except.error e => (Except.error e, store, [])
              | Except.ok _ =>
                  match o.refresh_result with
                  | Except.error _ =>
                      (Except.ok none, clear_refresh_token store provider,
                        [Event.refreshExchange])
                  | Except.ok token_set =>
                      let store2 :=
                        match token_set.refresh_token with
                        | some new_refresh_token =>
                            save_refresh_token store provider new_refresh_token
                        | none => store
                      match o.inbox_result with
                      | Except.error e => (Except.error e, store2,
                          [Event.refreshExchange, Event.fetchInbox])
                      | Except.ok result => (Except.ok (some result), store2,
                          [Event.refreshExchange, Event.fetchInbox])

/-- The `mail` / `userPrincipalName` fields of the Microsoft Graph `/me`
response. -/
structure GraphMeResponse where
  mail : Option String
  userPrincipalName : Option String
deriving DecidableEq, Repr

/-- `emailAddress.address` of a Graph message sender. -/
structure GraphEmailAddress where
  address : Option String
deriving DecidableEq, Repr

/-- The `from` object of a Graph message. -/
structure GraphFrom where
  emailAddress : Option GraphEmailAddress
deriving DecidableEq, Repr

/-- One entry of the Graph `/me/messages` response. -/
structure GraphMessage where
  subject : Option String
  «from» : Option GraphFrom
  receivedDateTime : Option String
  bodyPreview : Option String
deriving DecidableEq, Repr

/-- The per-entry normalization in `fetch_outlook_inbox`: missing fields map to
the fixed placeholder strings; a whitespace-only body preview also maps to its
placeholder. -/
def normalize_graph_message (entry : GraphMessage) : MailMessage :=
  { subject := entry.subject.getD "(geen onderwerp)"
    «from» :=
      ((entry.«from».bind (fun f => f.emailAddress)).bind (fun a => a.address)).getD
        "(onbekend)"
    date := entry.receivedDateTime.getD "(onbekend)"
    body :=
      ((entry.bodyPreview.filter (fun value => ¬ rust_is_empty (rust_trim value))).getD
        "(geen inhoud)") }

/-- The message-list normalization of `fetch_outlook_inbox` over the decoded
response entries. -/
def fetch_outlook_messages (value : List GraphMessage) : List MailMessage :=
  value.map normalize_graph_message

/-- The account label of `fetch_outlook_inbox`: `mail`, else
`userPrincipalName`, else the fixed placeholder. -/
def outlook_account (me : GraphMeResponse) : String :=
  match me.mail with
  | some mail => mail
  | none => me.userPrincipalName.getD "(onbekend account)"

/-- Sample redirect URL for concrete witnesses: the default loopback target. -/
def sample_url : UrlModel := ⟨"http", some "127.0.0.1", some 53682, "/callback"⟩

/-- Sample environment for concrete witnesses: no overrides, default redirect. -/
def sample_env : Env := ⟨none, none, Except.ok sample_url⟩

/-- Sample callback request for concrete witnesses. -/
def sample_callback : CallbackRequest := ⟨"/callback", [("code", "abc"), ("state", "S")]⟩

/-- Sample oracle for concrete witnesses: everything succeeds, the refresh
response rotates the token. -/
def sample_oracle : Oracle :=
  ⟨"S", true, sample_callback, Except.ok ⟨"AT", some "NEW"⟩, Except.ok ⟨"AT2", none⟩,
    Except.ok ⟨Provider.google, "user@example.com", []⟩⟩

/-- Sample store for concrete witnesses: Google credentials and a stored
refresh token. -/
def sample_store : Store :=
  ⟨[("google", ⟨"x.apps.googleusercontent.com", none⟩)], [("google", "tok")]⟩

/-- Claim C9: an Outlook inbox message lacking `subject` normalizes to the
fixed placeholder (not the empty string); missing `from`, `receivedDateTime`
and `bodyPreview` likewise map to their fixed placeholders. -/
theorem outlook_missing_field_placeholders (entry : GraphMessage) :
    (entry.subject = none →
      (normalize_graph_message entry).subject = "(geen onderwerp)" ∧
      (normalize_graph_message entry).subject ≠ "") ∧
    (entry.«from» = none → (normalize_graph_message entry).«from» = "(onbekend)") ∧
    (entry.receivedDateTime = none → (normalize_graph_message entry).date = "(onbekend)") ∧
    (entry.bodyPreview = none → (normalize_graph_message entry).body = "(geen inhoud)") := by
  refine ⟨fun h => ⟨?_, ?_⟩, fun h => ?_, fun h => ?_, fun h => ?_⟩ <;>
    simp [normalize_graph_message, h]

/-- Witness for C9 at the all-fields-missing message. -/
theorem outlook_missing_field_placeholders_witness :
    (normalize_graph_message ⟨none, none, none, none⟩).subject = "(geen onderwerp)" ∧
    (normalize_graph_message ⟨none, none, none, none⟩).subject ≠ "" ∧
    (normalize_graph_message ⟨none, none, none, none⟩).«from» = "(onbekend)" ∧
    (normalize_graph_message ⟨none, none, none, none⟩).date = "(onbekend)" ∧
    (normalize_graph_message ⟨none, none, none, none⟩).body = "(geen inhoud)" := by
  have h := outlook_missing_field_placeholders ⟨none, none, none, none⟩
  exact ⟨(h.1 rfl).1, (h.1 rfl).2, h.2.1 rfl, h.2.2.1 rfl, h.2.2.2 rfl⟩

/-- Claim C10: `try_restore_session` checks the stored refresh token before
resolving credentials: with no stored token it returns "no session" at once
(whatever the credential state), while a stored token plus missing credentials
fails with the missing-credentials error. -/
theorem restore_token_check_first (env : Env) (o : Oracle) (store : Store) (p : Provider)
    (rt : String) :
    (load_refresh_token store p = none →
      try_restore_session env o store p = (Except.ok none, store, [])) ∧
    (load_refresh_token store p = some rt → load_provider_credentials env store p = none →
      try_restore_session env o store p =
        (Except.error (missing_credentials_message p), store, [])) := by
  constructor
  · intro h
    simp [try_restore_session, h]
  · intro h1 h2
    simp [try_restore_session, h1, h2]

/-- Witness for C10: an empty store restores to "no session" even with no
credentials anywhere; a store holding only a token fails over the missing
credentials. -/
theorem restore_token_check_first_witness :
    try_restore_session sample_env sample_oracle ⟨[], []⟩ Provider.google =
      (Except.ok none, ⟨[], []⟩, []) ∧
    try_restore_session sample_env sample_oracle ⟨[], [("google", "tok")]⟩ Provider.google =
      (Except.error (missing_credentials_message Provider.google),
        ⟨[], [("google", "tok")]⟩, []) := by
  exact ⟨(restore_token_check_first sample_env sample_oracle ⟨[], []⟩ Provider.google "tok").1
      (by decide),
    (restore_token_check_first sample_env sample_oracle ⟨[], [("google", "tok")]⟩
      Provider.google "tok").2 (by decide) (by decide)⟩

/-- Claim C4: with no stored credentials for the provider (and, for Google, no
environment fallback), `login_and_fetch` fails with the missing-credentials
error naming the provider, with an untouched store and an empty event trace
(no socket bound, no browser, no network); and the environment fallback never
applies to Outlook: the credentials `load_provider_credentials` resolves for
Outlook do not depend on the environment. -/
theorem missing_credentials_fails_early (env : Env) (o : Oracle) (store : Store) (p : Provider)
    (h1 : settings_field (load_oauth_settings store) p = none)
    (h2 : p = Provider.google → load_google_credentials_from_env env = none) :
    login_and_fetch env o store p = (Except.error (missing_credentials_message p), store, []) ∧
    (∀ env2 env3 store2, load_provider_credentials env2 store2 Provider.outlook =
      load_provider_credentials env3 store2 Provider.outlook) := by
  have hl : load_provider_credentials env store p = none := by
    cases p with
    | google =>
        have hg : (load_oauth_settings store).google = none := h1
        simp [load_provider_credentials, hg, h2 rfl]
    | outlook =>
        have ho : (load_oauth_settings store).outlook = none := h1
        simp [load_provider_credentials, ho]
  exact ⟨by simp [login_and_fetch, hl], fun env2 env3 store2 => rfl⟩

/-- Witness for C4 at the empty store and empty environment. -/
theorem missing_credentials_fails_early_witness :
    login_and_fetch sample_env sample_oracle ⟨[], []⟩ Provider.google =
      (Except.error (missing_credentials_message Provider.google), ⟨[], []⟩, []) ∧
    load_provider_credentials sample_env ⟨[], []⟩ Provider.outlook =
      load_provider_credentials ⟨some "cid", some "sec", Except.ok sample_url⟩ ⟨[], []⟩
        Provider.outlook := by
  have h := missing_credentials_fails_early sample_env sample_oracle ⟨[], []⟩ Provider.google
    (by decide) (fun _ => by decide)
  exact ⟨h.1, h.2 sample_env ⟨some "cid", some "sec", Except.ok sample_url⟩ ⟨[], []⟩⟩

/-- Claim C5: `RedirectTarget::from_url` fails exactly when the scheme is not
plaintext HTTP, the host is not a loopback name, the port cannot be determined,
or the path is empty or root; and with an `https` redirect URI configured,
`login_and_fetch` fails and binds no socket. -/
theorem redirect_resolver_failure_iff (u u2 : UrlModel) (env : Env) (o : Oracle)
    (store : Store) (p : Provider) :
    ((∃ e, RedirectTarget.from_url u2 = Except.error e) ↔
      (u2.scheme ≠ "http" ∨
        (u2.host ≠ some "127.0.0.1" ∧ u2.host ≠ some "localhost") ∨
        u2.port_or_known_default = none ∨ u2.path = "" ∨ u2.path = "/")) ∧
    (env.redirect_parsed = Except.ok u → u.scheme = "https" →
      (∃ e, (login_and_fetch env o store p).1 = Except.error e) ∧
      Event.socketBind ∉ (login_and_fetch env o store p).2.2) := by
  constructor
  · rcases u2 with ⟨scheme, host, port, path⟩
    by_cases h1 : scheme = "http"
    · rcases host with _ | host
      · simp [RedirectTarget.from_url, h1]
      · by_cases h2 : host = "127.0.0.1" ∨ host = "localhost"
        · have h2n : ¬ (host ≠ "127.0.0.1" ∧ host ≠ "localhost") := by tauto
          rcases port with _ | port
          · simp only [RedirectTarget.from_url, h1]
            simp [h2n]
          · by_cases h3 : path = "" ∨ path = "/"
            · simp only [RedirectTarget.from_url, h1]
              simp [h2n, h3]
            · simp only [RedirectTarget.from_url, h1]
              push_neg at h3
              simp [h2n, h3]
        · push_neg at h2
          simp only [RedirectTarget.from_url, h1]
          simp [h2]
    · simp [RedirectTarget.from_url, h1]
  · intro hu hs
    have hne : u.scheme ≠ "http" := by rw [hs]; decide
    cases hc : load_provider_credentials env store p with
    | none => simp [login_and_fetch, hc]
    | some credentials =>
        cases hv : validate_credentials p credentials with
        | error e => simp [login_and_fetch, hc, hv]
        | ok v =>
            simp [login_and_fetch, hc, hv, hu, RedirectTarget.from_url, hne]

/-- Witness for C5: the `https` variant of the default redirect URI. -/
theorem redirect_resolver_failure_iff_witness :
    (∃ e, RedirectTarget.from_url ⟨"https", some "127.0.0.1", some 53682, "/callback"⟩ =
      Except.error e) ∧
    (∃ e, (login_and_fetch ⟨none, none,
        Except.ok ⟨"https", some "127.0.0.1", some 53682, "/callback"⟩⟩ sample_oracle
        sample_store Provider.google).1 = Except.error e) ∧
    Event.socketBind ∉ (login_and_fetch ⟨none, none,
        Except.ok ⟨"https", some "127.0.0.1", some 53682, "/callback"⟩⟩ sample_oracle
        sample_store Provider.google).2.2 := by
  have h := redirect_resolver_failure_iff ⟨"https", some "127.0.0.1", some 53682, "/callback"⟩
    ⟨"https", some "127.0.0.1", some 53682, "/callback"⟩
    ⟨none, none, Except.ok ⟨"https", some "127.0.0.1", some 53682, "/callback"⟩⟩
    sample_oracle sample_store Provider.google
  have h2 := h.2 rfl rfl
  exact ⟨h.1.mpr (Or.inl (by decide)), h2.1, h2.2⟩

/-- Claim C2: after a successful refresh-token exchange, in `login_and_fetch`
as well as `try_restore_session`, a rotated refresh token in the response
replaces the stored row for that provider, while a response without a refresh
token leaves the whole store untouched. -/
theorem refresh_rotation_frame (env : Env) (o : Oracle) (store : Store) (p : Provider)
    (credentials : ProviderCredentials) (u : UrlModel) (t : RedirectTarget) (rt : String)
    (ts : TokenSet)
    (h1 : load_provider_credentials env store p = some credentials)
    (h2 : validate_credentials p credentials = Except.ok ())
    (h3 : env.redirect_parsed = Except.ok u)
    (h4 : RedirectTarget.from_url u = Except.ok t)
    (h5 : load_refresh_token store p = some rt)
    (h6 : o.refresh_result = Except.ok ts) :
    (∀ nt, ts.refresh_token = some nt →
      find_row (login_and_fetch env o store p).2.1.oauth_tokens p.as_key = some nt ∧
      find_row (try_restore_session env o store p).2.1.oauth_tokens p.as_key = some nt) ∧
    (ts.refresh_token = none →
      (login_and_fetch env o store p).2.1 = store ∧
      (try_restore_session env o store p).2.1 = store) := by
  constructor
  · intro nt hnt
    constructor
    · simp [login_and_fetch, h1, h2, h3, h4, h5, h6, hnt, save_refresh_token,
        find_row_upsert_self]
    · cases hi : o.inbox_result <;>
        simp [try_restore_session, h1, h2, h3, h5, h6, hnt, hi, save_refresh_token,
          find_row_upsert_self]
  · intro hnone
    constructor
    · simp [login_and_fetch, h1, h2, h3, h4, h5, h6, hnone]
    · cases hi : o.inbox_result <;>
        simp [try_restore_session, h1, h2, h3, h5, h6, hnone, hi]

/-- Witness for C2: a rotating refresh response stores the new token; a
non-rotating one leaves the sample store unchanged. -/
theorem refresh_rotation_frame_witness :
    find_row (login_and_fetch sample_env sample_oracle sample_store
      Provider.google).2.1.oauth_tokens "google" = some "NEW" ∧
    find_row (try_restore_session sample_env sample_oracle sample_store
      Provider.google).2.1.oauth_tokens "google" = some "NEW" ∧
    (login_and_fetch sample_env
      { sample_oracle with refresh_result := Except.ok ⟨"AT", none⟩ } sample_store
      Provider.google).2.1 = sample_store ∧
    (try_restore_session sample_env
      { sample_oracle with refresh_result := Except.ok ⟨"AT", none⟩ } sample_store
      Provider.google).2.1 = sample_store := by
  have ha := refresh_rotation_frame sample_env sample_oracle sample_store Provider.google
    ⟨"x.apps.googleusercontent.com", none⟩ sample_url ⟨"127.0.0.1", 53682, "/callback"⟩
    "tok" ⟨"AT", some "NEW"⟩ (by decide) (by decide) (by decide) (by decide) (by decide)
    (by decide)
  have hb := refresh_rotation_frame sample_env
    { sample_oracle with refresh_result := Except.ok ⟨"AT", none⟩ } sample_store
    Provider.google ⟨"x.apps.googleusercontent.com", none⟩ sample_url
    ⟨"127.0.0.1", 53682, "/callback"⟩ "tok" ⟨"AT", none⟩ (by decide) (by decide) (by decide)
    (by decide) (by decide) (by decide)
  have ha2 := ha.1 "NEW" rfl
  have hb2 := hb.2 rfl
  exact ⟨ha2.1, ha2.2, hb2.1, hb2.2⟩

/-- Claim C3: a stored refresh token the endpoint rejects makes
`try_restore_session` return "no session" (`Ok none`, not an error) and leaves
the store without a refresh token row for that provider. -/
theorem restore_rejected_clears_token (env : Env) (o : Oracle) (store : Store) (p : Provider)
    (credentials : ProviderCredentials) (u : UrlModel) (rt e : String)
    (h1 : load_refresh_token store p = some rt)
    (h2 : load_provider_credentials env store p = some credentials)
    (h3 : validate_credentials p credentials = Except.ok ())
    (h4 : env.redirect_parsed = Except.ok u)
    (h5 : o.refresh_result = Except.error e) :
    (try_restore_session env o store p).1 = Except.ok none ∧
    find_row (try_restore_session env o store p).2.1.oauth_tokens p.as_key = none ∧
    load_refresh_token (try_restore_session env o store p).2.1 p = none := by
  have key : try_restore_session env o store p =
      (Except.ok none, clear_refresh_token store p, [Event.refreshExchange]) := by
    simp [try_restore_session, h1, h2, h3, h4, h5]
  rw [key]
  refine ⟨rfl, ?_, ?_⟩
  · simp [clear_refresh_token, find_row_delete_self]
  · simp [load_refresh_token, clear_refresh_token, find_row_delete_self]

/-- Witness for C3 at the sample store with a rejecting endpoint. -/
theorem restore_rejected_clears_token_witness :
    (try_restore_session sample_env
      { sample_oracle with refresh_result := Except.error "invalid_grant" } sample_store
      Provider.google).1 = Except.ok none ∧
    find_row (try_restore_session sample_env
      { sample_oracle with refresh_result := Except.error "invalid_grant" } sample_store
      Provider.google).2.1.oauth_tokens "google" = none ∧
    load_refresh_token (try_restore_session sample_env
      { sample_oracle with refresh_result := Except.error "invalid_grant" } sample_store
      Provider.google).2.1 Provider.google = none := by
  exact restore_rejected_clears_token sample_env
    { sample_oracle with refresh_result := Except.error "invalid_grant" } sample_store
    Provider.google ⟨"x.apps.googleusercontent.com", none⟩ sample_url "tok" "invalid_grant"
    (by decide) (by decide) (by decide) (by decide) (by decide)

theorem login_interactive_browserOpen (o : Oracle) (store : Store) (p : Provider)
    (t : RedirectTarget) (sr : Option String) :
    Event.browserOpen (auth_extra_params p sr) ∈ (login_interactive o store p t sr).2.2 ∧
    ∀ xs, Event.browserOpen xs ∈ (login_interactive o store p t sr).2.2 →
      xs = auth_extra_params p sr := by
  unfold login_interactive
  by_cases hb : o.browser_ok
  · simp only [hb, if_true]
    cases hp : (parse_callback_params o.callback t o.csrf_token).2.2 with
    | error e => simp
    | ok code =>
        cases he : o.exchange_result with
        | error e2 => simp
        | ok ts => cases ts.refresh_token <;> simp
  · simp [hb]

theorem auth_extra_params_eq_iff (p : Provider) (sr : Option String) :
    auth_extra_params p sr = [("access_type", "offline"), ("prompt", "consent")] ↔
      (p = Provider.google ∧ sr = none) := by
  unfold auth_extra_params
  by_cases h : p = Provider.google ∧ sr = none
  · simp [h]
  · simp [h]

/-- Claim C8: in `login_and_fetch`, whenever the interactive authorization is
reached (no stored refresh token, or the stored one was rejected), the browser
opens on an authorization URL whose extra parameters are
`access_type=offline&prompt=consent` exactly when the provider is Google and no
refresh token was stored at flow start; after a rejected stored token the
parameters are not added. -/
theorem offline_consent_extra_params (env : Env) (o : Oracle) (store : Store) (p : Provider)
    (credentials : ProviderCredentials) (u : UrlModel) (t : RedirectTarget)
    (h1 : load_provider_credentials env store p = some credentials)
    (h2 : validate_credentials p credentials = Except.ok ())
    (h3 : env.redirect_parsed = Except.ok u)
    (h4 : RedirectTarget.from_url u = Except.ok t)
    (h5 : load_refresh_token store p = none ∨ ∃ e, o.refresh_result = Except.error e) :
    Event.browserOpen (auth_extra_params p (load_refresh_token store p)) ∈
      (login_and_fetch env o store p).2.2 ∧
    (∀ xs, Event.browserOpen xs ∈ (login_and_fetch env o store p).2.2 →
      xs = auth_extra_params p (load_refresh_token store p)) ∧
    (auth_extra_params p (load_refresh_token store p) =
        [("access_type", "offline"), ("prompt", "consent")] ↔
      (p = Provider.google ∧ load_refresh_token store p = none)) := by
  cases hl : load_refresh_token store p with
  | none =>
      have key : login_and_fetch env o store p = login_interactive o store p t none := by
        simp [login_and_fetch, h1, h2, h3, h4, hl]
      rw [key]
      have hm := login_interactive_browserOpen o store p t none
      exact ⟨hm.1, hm.2, auth_extra_params_eq_iff p none⟩
  | some rt =>
      rcases h5 with h5 | ⟨e, h5⟩
      · exact absurd hl (by simp [h5])
      · have key : login_and_fetch env o store p =
            ((login_interactive o (clear_refresh_token store p) p t (some rt)).1,
              (login_interactive o (clear_refresh_token store p) p t (some rt)).2.1,
              Event.refreshExchange ::
                (login_interactive o (clear_refresh_token store p) p t (some rt)).2.2) := by
          simp [login_and_fetch, h1, h2, h3, h4, hl, h5]
        rw [key]
        have hm := login_interactive_browserOpen o (clear_refresh_token store p) p t (some rt)
        refine ⟨List.mem_cons.mpr (Or.inr hm.1), fun xs hxs => ?_,
          auth_extra_params_eq_iff p (some rt)⟩
        rcases List.mem_cons.mp hxs with hx | hx
        · exact absurd hx (by simp)
        · exact hm.2 xs hx

/-- Witness for C8: fresh Google flow (no stored token) gets the offline and
consent parameters; the interactive fallback after a rejected stored token does
not. -/
theorem offline_consent_extra_params_witness :
    Event.browserOpen [("access_type", "offline"), ("prompt", "consent")] ∈
      (login_and_fetch sample_env sample_oracle ⟨sample_store.oauth_settings, []⟩
        Provider.google).2.2 ∧
    (∀ xs, Event.browserOpen xs ∈
        (login_and_fetch sample_env
          { sample_oracle with refresh_result := Except.error "invalid_grant" } sample_store
          Provider.google).2.2 → xs = []) := by
  have ha := offline_consent_extra_params sample_env sample_oracle
    ⟨sample_store.oauth_settings, []⟩ Provider.google ⟨"x.apps.googleusercontent.com", none⟩
    sample_url ⟨"127.0.0.1", 53682, "/callback"⟩ (by decide) (by decide) (by decide)
    (by decide) (Or.inl (by decide))
  have hb := offline_consent_extra_params sample_env
    { sample_oracle with refresh_result := Except.error "invalid_grant" } sample_store
    Provider.google ⟨"x.apps.googleusercontent.com", none⟩ sample_url
    ⟨"127.0.0.1", 53682, "/callback"⟩ (by decide) (by decide) (by decide) (by decide)
    (Or.inr ⟨"invalid_grant", rfl⟩)
  constructor
  · have h := ha.1
    rwa [show auth_extra_params Provider.google
        (load_refresh_token ⟨sample_store.oauth_settings, []⟩ Provider.google) =
        [("access_type", "offline"), ("prompt", "consent")] from by decide] at h
  · intro xs hxs
    have h := hb.2.1 xs hxs
    rwa [show auth_extra_params Provider.google
        (load_refresh_token sample_store Provider.google) = [] from by decide] at h

theorem tokenExchange_mem_interactive (o : Oracle) (store : Store) (p : Provider)
    (t : RedirectTarget) (sr : Option String) (code : String)
    (h : Event.tokenExchange code ∈ (login_interactive o store p t sr).2.2) :
    (parse_callback_params o.callback t o.csrf_token).2.2 = Except.ok code := by
  unfold login_interactive at h
  by_cases hb : o.browser_ok
  · simp only [hb, if_true] at h
    cases hp : (parse_callback_params o.callback t o.csrf_token).2.2 with
    | error e => simp [hp] at h
    | ok c =>
        simp only [hp] at h
        cases he : o.exchange_result with
        | error e2 =>
            simp [he] at h
            rw [h]
        | ok ts =>
            simp only [he] at h
            cases ts.refresh_token <;> simp at h <;> rw [h]
  · simp [hb] at h

/-- Claim C1: `parse_callback_params` applies the matching rules in order —
wrong path fails the flow; an `error` parameter gives a 400 response and a
failure carrying the provider-supplied error text; a `state` parameter that
does not equal the flow's CSRF token gives a 400 response and the state
mismatch failure; a missing `code` gives a 400 response and the missing-code
failure; a fully matching request gives a 200 response and its code — and a
token exchange happens in `login_and_fetch` only for a code the callback
parser accepted, so a failing callback never reaches token exchange. -/
theorem callback_matching_rules (callback : CallbackRequest) (target : RedirectTarget)
    (es : String) :
    (callback.path ≠ target.path →
      parse_callback_params callback target es =
        ("400 Bad Request", "Ongeldige callback path: " ++ callback.path,
          Except.error ("Ongeldige callback path: " ++ callback.path))) ∧
    (callback.path = target.path → ∀ e, (extract_params callback.query).error = some e →
      parse_callback_params callback target es =
        ("400 Bad Request", "OAuth login mislukt: " ++ e,
          Except.error ("OAuth login mislukt: " ++ e))) ∧
    (callback.path = target.path → (extract_params callback.query).error = none →
      (extract_params callback.query).state ≠ some es →
      parse_callback_params callback target es =
        ("400 Bad Request", "OAuth state mismatch", Except.error "OAuth state mismatch")) ∧
    (callback.path = target.path → (extract_params callback.query).error = none →
      (extract_params callback.query).state = some es →
      (extract_params callback.query).code = none →
      parse_callback_params callback target es =
        ("400 Bad Request", "OAuth callback bevat geen code",
          Except.error "OAuth callback bevat geen code")) ∧
    (callback.path = target.path → (extract_params callback.query).error = none →
      (extract_params callback.query).state = some es →
      ∀ c, (extract_params callback.query).code = some c →
      parse_callback_params callback target es =
        ("200 OK", "Login geslaagd. Je kunt dit tabblad sluiten.", Except.ok c)) ∧
    (∀ env o store p code,
      Event.tokenExchange code ∈ (login_and_fetch env o store p).2.2 →
      ∃ u t, env.redirect_parsed = Except.ok u ∧ RedirectTarget.from_url u = Except.ok t ∧
        (parse_callback_params o.callback t o.csrf_token).2.2 = Except.ok code) := by
  refine ⟨?_, ?_, ?_, ?_, ?_, ?_⟩
  · intro hp
    simp [parse_callback_params, hp]
  · intro hp e he
    simp [parse_callback_params, hp, he]
  · intro hp he hs
    simp [parse_callback_params, hp, he, hs]
  · intro hp he hs hc
    simp [parse_callback_params, hp, he, hs, hc]
  · intro hp he hs c hc
    simp [parse_callback_params, hp, he, hs, hc]
  · intro env o store p code h
    simp only [login_and_fetch] at h
    cases hc : load_provider_credentials env store p with
    | none => simp [hc] at h
    | some credentials =>
        simp only [hc] at h
        cases hv : validate_credentials p credentials with
        | error e => simp [hv] at h
        | ok v =>
            simp only [hv] at h
            cases hu : env.redirect_parsed with
            | error e => simp [hu] at h
            | ok u =>
                simp only [hu] at h
                cases ht : RedirectTarget.from_url u with
                | error e => simp [ht] at h
                | ok t =>
                    simp only [ht] at h
                    refine ⟨u, t, rfl, ht, ?_⟩
                    cases hl : load_refresh_token store p with
                    | none =>
                        simp only [hl] at h
                        exact tokenExchange_mem_interactive o store p t none code h
                    | some rt =>
                        simp only [hl] at h
                        cases hrr : o.refresh_result with
                        | ok ts => simp [hrr] at h
                        | error e =>
                            simp only [hrr, List.mem_cons] at h
                            rcases h with h | h
                            · exact absurd h (by simp)
                            · exact tokenExchange_mem_interactive o
                                (clear_refresh_token store p) p t (some rt) code h

/-- Witness for C1: a fully matching callback yields 200 and its code; an
`error=access_denied` callback yields 400 and the denial failure. -/
theorem callback_matching_rules_witness :
    parse_callback_params ⟨"/callback", [("code", "abc"), ("state", "S")]⟩
      ⟨"127.0.0.1", 53682, "/callback"⟩ "S" =
      ("200 OK", "Login geslaagd. Je kunt dit tabblad sluiten.", Except.ok "abc") ∧
    parse_callback_params
      ⟨"/callback", [("error", "access_denied"), ("code", "abc"), ("state", "S")]⟩
      ⟨"127.0.0.1", 53682, "/callback"⟩ "S" =
      ("400 Bad Request", "OAuth login mislukt: " ++ "access_denied",
        Except.error ("OAuth login mislukt: " ++ "access_denied")) := by
  have ha := callback_matching_rules ⟨"/callback", [("code", "abc"), ("state", "S")]⟩
    ⟨"127.0.0.1", 53682, "/callback"⟩ "S"
  have hb := callback_matching_rules
    ⟨"/callback", [("error", "access_denied"), ("code", "abc"), ("state", "S")]⟩
    ⟨"127.0.0.1", 53682, "/callback"⟩ "S"
  exact ⟨ha.2.2.2.2.1 rfl (by decide) (by decide) "abc" (by decide),
    hb.2.1 rfl "access_denied" (by decide)⟩

theorem rust_trim_idempotent (s : String) : rust_trim (rust_trim s) = rust_trim s := by
  have key : ∀ l : List Char,
      List.rdropWhile Char.isWhitespace (List.dropWhile Char.isWhitespace
        (List.rdropWhile Char.isWhitespace (List.dropWhile Char.isWhitespace l))) =
      List.rdropWhile Char.isWhitespace (List.dropWhile Char.isWhitespace l) := by
    intro l
    have hdw : List.dropWhile Char.isWhitespace
        (List.rdropWhile Char.isWhitespace (List.dropWhile Char.isWhitespace l)) =
        List.rdropWhile Char.isWhitespace (List.dropWhile Char.isWhitespace l) := by
      rw [List.dropWhile_eq_self_iff]
      intro hl
      have hpre := List.rdropWhile_prefix Char.isWhitespace
        (List.dropWhile Char.isWhitespace l)
      have hlen : 0 < (List.dropWhile Char.isWhitespace l).length :=
        lt_of_lt_of_le hl hpre.length_le
      have hget := hpre.getElem (n := 0) hl
      simp only [List.get_eq_getElem]
      rw [hget]
      have hnot := List.dropWhile_get_zero_not Char.isWhitespace l hlen
      simpa using hnot
    rw [hdw, List.rdropWhile_idempotent]
  exact congrArg String.mk (key s.data)

theorem empty_to_none_normalized (sec : Option String) :
    empty_to_none ((normalized_secret sec).getD "") = normalized_secret sec := by
  cases sec with
  | none =>
      show empty_to_none "" = none
      decide
  | some v =>
      by_cases h : rust_is_empty (rust_trim v) = true
      · have hn : normalized_secret (some v) = none := by simp [normalized_secret, h]
        rw [hn]
        show empty_to_none "" = none
        decide
      · have hn : normalized_secret (some v) = some (rust_trim v) := by
          simp [normalized_secret, h]
        rw [hn]
        show empty_to_none (rust_trim v) = some (rust_trim v)
        unfold empty_to_none
        rw [rust_trim_idempotent]
        simp [h]

/-- Counterexample to claim C6 as stated: saving Google credentials with
client id `"abc"` (non-empty when trimmed) and secret `" "` round-trips to the
secret `none`, not to "exactly that secret" `some " "`. -/
theorem credentials_roundtrip_counterexample :
    rust_is_empty (rust_trim "abc") = false ∧
    (save_provider_credentials ⟨[], []⟩ Provider.google ⟨"abc", some " "⟩).map
      (fun store1 => (load_oauth_settings store1).google) =
      Except.ok (some ⟨"abc", none⟩) ∧
    some (⟨"abc", none⟩ : ProviderCredentials) ≠ some ⟨"abc", some " "⟩ := by
  decide

/-- Claim C6, amended: with a well-formed settings table and a non-empty
trimmed client id, `load_oauth_settings` after `save_provider_credentials`
returns the trimmed client id and the normalized secret (whitespace-only
mapped to absent); saving twice for the same provider equals saving the second
credentials once (overwrite, no duplicate row); an empty trimmed client id
fails with the validation error. -/
theorem credentials_roundtrip_amended (store : Store) (p : Provider)
    (c1 c2 : ProviderCredentials)
    (hw : table_wf store.oauth_settings)
    (h1 : rust_is_empty (rust_trim c1.client_id) = false) :
    ∃ store1, save_provider_credentials store p c1 = Except.ok store1 ∧
      settings_field (load_oauth_settings store1) p =
        some ⟨rust_trim c1.client_id, normalized_secret c1.client_secret⟩ ∧
      save_provider_credentials store1 p c2 = save_provider_credentials store p c2 ∧
      ∀ c3, rust_is_empty (rust_trim c3.client_id) = true →
        save_provider_credentials store p c3 =
          Except.error "client id mag niet leeg zijn" := by
  refine ⟨⟨upsert_row store.oauth_settings p.as_key
      ⟨rust_trim c1.client_id, normalized_secret c1.client_secret⟩, store.oauth_tokens⟩,
    ?_, ?_, ?_, ?_⟩
  · simp [save_provider_credentials, h1]
  · have hw1 := table_wf_upsert store.oauth_settings p.as_key
      ⟨rust_trim c1.client_id, normalized_secret c1.client_secret⟩ hw
    rw [load_oauth_settings_find _ p hw1]
    show (find_row (upsert_row store.oauth_settings p.as_key
        ⟨rust_trim c1.client_id, normalized_secret c1.client_secret⟩) p.as_key).map _ = _
    rw [find_row_upsert_self]
    simp [empty_to_none_normalized]
  · by_cases h2 : rust_is_empty (rust_trim c2.client_id) = true
    · simp [save_provider_credentials, h2]
    · simp [save_provider_credentials, h2, upsert_row_upsert_row]
  · intro c3 h3
    simp [save_provider_credentials, h3]

/-- Witness for amended C6: saving `" abc "` with secret `" s "` loads back as
`"abc"` with secret `"s"`. -/
theorem credentials_roundtrip_amended_witness :
    ∃ store1,
      save_provider_credentials ⟨[], []⟩ Provider.google ⟨" abc ", some " s "⟩ =
        Except.ok store1 ∧
      settings_field (load_oauth_settings store1) Provider.google =
        some ⟨"abc", some "s"⟩ := by
  obtain ⟨store1, hsave, hload, _, _⟩ := credentials_roundtrip_amended ⟨[], []⟩
    Provider.google ⟨" abc ", some " s "⟩ ⟨"xyz", none⟩ (by simp [table_wf]) (by decide)
  refine ⟨store1, hsave, ?_⟩
  rw [hload]
  decide

/-- Counterexample to claim C7 as stated: `save_refresh_token` stores the
whitespace-only token verbatim — the write path does not normalize it to
absent, only the read path does. -/
theorem whitespace_normalization_counterexample :
    find_row (save_refresh_token ⟨[], []⟩ Provider.google " ").oauth_tokens "google" =
      some " " ∧
    (some " " : Option String) ≠ none ∧
    load_refresh_token (save_refresh_token ⟨[], []⟩ Provider.google " ") Provider.google =
      none := by
  decide

/-- Claim C7, amended: a whitespace-only (including empty) client secret is
normalized to absent on the write path (`normalized_secret`) and on the read
path (`empty_to_none`); a whitespace-only refresh token is stored verbatim on
write but reads back as absent (`load_refresh_token`), so the value read back
is indistinguishable from absent; and normalizing twice gives the same result
as normalizing once. -/
theorem whitespace_normalization_amended (s : String) (store : Store) (p : Provider)
    (h : rust_trim s = "") :
    normalized_secret (some s) = none ∧
    empty_to_none s = none ∧
    load_refresh_token (save_refresh_token store p s) p = none ∧
    find_row (save_refresh_token store p s).oauth_tokens p.as_key = some s ∧
    normalized_secret (normalized_secret (some s)) = normalized_secret (some s) := by
  have he : rust_is_empty (rust_trim s) = true := by rw [h]; decide
  have h1 : normalized_secret (some s) = none := by simp [normalized_secret, he]
  refine ⟨h1, ?_, ?_, ?_, ?_⟩
  · simp [empty_to_none, he]
  · simp [load_refresh_token, save_refresh_token, find_row_upsert_self, he]
  · simp [save_refresh_token, find_row_upsert_self]
  · rw [h1]
    rfl

/-- Witness for amended C7 at the one-space string. -/
theorem whitespace_normalization_amended_witness :
    normalized_secret (some " ") = none ∧
    empty_to_none " " = none ∧
    load_refresh_token (save_refresh_token ⟨[], []⟩ Provider.outlook " ")
      Provider.outlook = none ∧
    find_row (save_refresh_token ⟨[], []⟩ Provider.outlook " ").oauth_tokens "outlook" =
      some " " ∧
    normalized_secret (normalized_secret (some " ")) = normalized_secret (some " ") := by
  have h := whitespace_normalization_amended " " ⟨[], []⟩ Provider.outlook (by decide)
  exact ⟨h.1, h.2.1, h.2.2.1, h.2.2.2.1, h.2.2.2.2⟩
